import Mathlib

set_option autoImplicit false

namespace LmnopSpec

/-! Shallow embedding of the lmnop Home Assistant integration
(`custom_components/lmnop`): the `LightStateManager` from `lights.py`,
the `AlertTracker` from `__init__.py`, and the title-priority parsing
from `notify.py`.  Host-side effects (light state lookups, light
service calls, persisted storage, the persistent-notification list)
are modelled as an explicit environment plus explicit state passing;
every light service call is recorded in an output trace, and the
host's acceptance or rejection of a call (an exception in Python) is
modelled by a boolean oracle `cmd_ok` over commands. -/

/-! Constants from `const.py`. -/

def DOMAIN : String := "lmnop"

def PRIORITY_CRITICAL : String := "critical"

def PRIORITY_HIGH : String := "high"

/-- Constant `PRIORITY_MEDIUM = "medium"` from `const.py`, commented there
as "Regular household notifications". -/
def PRIORITY_MEDIUM : String := "medium"

def PRIORITY_LOW : String := "low"

def PRIORITY_DEBUG : String := "debug"

/-- Name imported by `notify.py` from `const.py`; `const.py` itself defines
only `PRIORITY_MEDIUM` for this level (the spec calls the level
"medium/regular"), so the medium value is used here. -/
def PRIORITY_REGULAR : String := PRIORITY_MEDIUM

def ALERT_PRIORITIES : List String := [PRIORITY_CRITICAL, PRIORITY_HIGH]

def ALERT_RGB_COLOR : List Nat := [255, 0, 0]

def ALERT_BRIGHTNESS : Nat := 255

/-! Host-side data model. -/

/-- Attributes of a Home Assistant light entity state, restricted to the
fields the integration reads: the four restorable attributes (a `none`
means the key is absent from the attribute dict), the
`supported_color_modes` list, and the group-membership attribute
`entity_id` (present on group entities). -/
structure LightAttrs where
  brightness : Option Nat
  rgb_color : Option (List Nat)
  color_temp : Option Nat
  effect : Option String
  supported_color_modes : List String
  entity_id : Option (List String)
deriving DecidableEq

/-- A Home Assistant entity state object: `state.state` plus attributes. -/
structure HAState where
  state : String
  attributes : LightAttrs
deriving DecidableEq

/-- Data of a `light.turn_on` service call; a `none` field means the key is
absent from the service data dict. -/
structure TurnOnData where
  entity_id : List String
  brightness : Option Nat
  rgb_color : Option (List Nat)
  color_temp : Option Nat
  effect : Option String
deriving DecidableEq

/-- A light service call issued through `hass.services.async_call`. -/
inductive LightCommand where
  | turn_on (data : TurnOnData)
  | turn_off (entity_id : String)
deriving DecidableEq

/-- The host environment: entity-state lookup (`hass.states.get`), the
command oracle (`cmd_ok c = false` models the service call raising), the
configured `alert_light_group` option (`none` models a Python-falsy
config value), and the ids of currently-live persistent notifications. -/
structure HostEnv where
  states : String → Option HAState
  cmd_ok : LightCommand → Bool
  alert_light_group : Option String
  live_notification_ids : Finset String

/-! `LightStateManager` (`lights.py`).  Its mutable state is
`_saved_states` (an insertion-ordered dict, modelled as an association
list) and `_alert_active`. -/

/-- Saved pre-alert state of one light, as built by `_save_light_state`:
`entity_id`, the raw `state` string, and each of the four attributes when
present. -/
structure SavedState where
  entity_id : String
  state : String
  brightness : Option Nat
  rgb_color : Option (List Nat)
  color_temp : Option Nat
  effect : Option String
deriving DecidableEq

structure LightStateManager where
  saved_states : List (String × SavedState)
  alert_active : Bool
deriving DecidableEq

/-- Python `s.startswith(p)`, modelled character-wise on the string data. -/
def str_startswith (s p : String) : Bool := p.data.isPrefixOf s.data

/-- Translation of `LightStateManager._get_light_entities`: empty input is
falsy; ids starting with `light.` are resolved through the state machine's
`entity_id` attribute (a falsy/absent attribute means a single light);
anything else yields no entities. -/
def LightStateManager.get_light_entities (env : HostEnv) (light_group_id : String) :
    List String :=
  if light_group_id = "" then []
  else if str_startswith light_group_id "light." then
    match env.states light_group_id with
    | none => []
    | some group_state =>
      match group_state.attributes.entity_id with
      | some l => if l = [] then [light_group_id] else l
      | none => [light_group_id]
  else []

/-- Translation of `LightStateManager._validate_rgb_support`: keep entities
whose state exists and whose `supported_color_modes` contains RGB. -/
def LightStateManager.validate_rgb_support (env : HostEnv) (entity_ids : List String) :
    List String :=
  entity_ids.filter (fun entity_id =>
    match env.states entity_id with
    | none => false
    | some st => st.attributes.supported_color_modes.contains "rgb")

/-- Translation of `LightStateManager._save_light_state`: `none` when the
entity has no state, otherwise the state string and whichever of
`brightness`, `rgb_color`, `color_temp`, `effect` are present. -/
def LightStateManager.save_light_state (env : HostEnv) (entity_id : String) :
    Option SavedState :=
  match env.states entity_id with
  | none => none
  | some st =>
    some { entity_id := entity_id
           state := st.state
           brightness := st.attributes.brightness
           rgb_color := st.attributes.rgb_color
           color_temp := st.attributes.color_temp
           effect := st.attributes.effect }

/-- Service data of the batched alert `turn_on` call issued by
`save_light_states_and_set_alert` (and by the startup recovery path). -/
def alertTurnOnData (rgb_lights : List String) : TurnOnData :=
  { entity_id := rgb_lights
    brightness := some ALERT_BRIGHTNESS
    rgb_color := some ALERT_RGB_COLOR
    color_temp := none
    effect := none }

/-- Translation of `LightStateManager.save_light_states_and_set_alert`.
Returns the boolean result, the manager state after the call, and the
trace of issued light commands (a rejected command is still traced: the
call was made and raised). -/
def LightStateManager.save_light_states_and_set_alert (env : HostEnv)
    (light_group_id : String) (self : LightStateManager) :
    Bool × LightStateManager × List LightCommand :=
  if self.alert_active then (false, self, [])
  else
    let entity_ids := LightStateManager.get_light_entities env light_group_id
    if entity_ids = [] then (false, self, [])
    else
      let rgb_lights := LightStateManager.validate_rgb_support env entity_ids
      if rgb_lights = [] then (false, self, [])
      else
        let saved := rgb_lights.filterMap (fun entity_id =>
          (LightStateManager.save_light_state env entity_id).map
            (fun s => (entity_id, s)))
        if saved = [] then (false, { self with saved_states := [] }, [])
        else
          let cmd := LightCommand.turn_on (alertTurnOnData rgb_lights)
          if env.cmd_ok cmd then
            (true, { saved_states := saved, alert_active := true }, [cmd])
          else
            (false, { saved_states := [], alert_active := self.alert_active }, [cmd])

/-- Restore command built for one snapshotted light in
`restore_light_states`: an off command when the saved state was `"off"`,
otherwise an on command with saved brightness, `color_temp` preferred
over `rgb_color`, and saved effect. -/
def LightStateManager.restoreCommand (entity_id : String) (saved : SavedState) :
    LightCommand :=
  if saved.state = "off" then LightCommand.turn_off entity_id
  else
    LightCommand.turn_on
      { entity_id := [entity_id]
        brightness := saved.brightness
        color_temp := saved.color_temp
        rgb_color := if saved.color_temp.isSome then none else saved.rgb_color
        effect := saved.effect }

/-- Restore loop body: issues each light's restore command in order; a
rejected command raises, aborting the loop (commands after it are not
issued). Returns whether every command succeeded, with the trace. -/
def LightStateManager.restore_loop (cmd_ok : LightCommand → Bool) :
    List (String × SavedState) → Bool × List LightCommand
  | [] => (true, [])
  | (entity_id, saved) :: rest =>
    let c := LightStateManager.restoreCommand entity_id saved
    if cmd_ok c then
      let r := LightStateManager.restore_loop cmd_ok rest
      (r.1, c :: r.2)
    else (false, [c])

/-- Translation of `LightStateManager.restore_light_states`: no-op returning
false when no alert is active or no states are saved; on full success the
snapshot and flag are cleared; an exception from any command is caught,
leaving the snapshot and flag untouched and returning false. -/
def LightStateManager.restore_light_states (env : HostEnv)
    (self : LightStateManager) : Bool × LightStateManager × List LightCommand :=
  if self.alert_active = false ∨ self.saved_states = [] then (false, self, [])
  else
    let r := LightStateManager.restore_loop env.cmd_ok self.saved_states
    if r.1 then (true, { saved_states := [], alert_active := false }, r.2)
    else (false, self, r.2)

/-- Translation of the `is_alert_active` property. -/
def LightStateManager.is_alert_active (self : LightStateManager) : Bool :=
  self.alert_active

/-- Translation of the `alert_light_count` property. -/
def LightStateManager.alert_light_count (self : LightStateManager) : Nat :=
  if self.alert_active then self.saved_states.length else 0

/-- Translation of `LightStateManager.clear_alert_state`. -/
def LightStateManager.clear_alert_state (self : LightStateManager) :
    LightStateManager :=
  { self with saved_states := [], alert_active := false }

/-! `AlertTracker` (`__init__.py`).  Its mutable state is the
`_active_alerts` set, the content of the persisted storage blob (the
`active_alerts` id list, semantically a set), and the referenced light
manager. -/

structure AlertTracker where
  active_alerts : Finset String
  store_data : Finset String
  light_manager : LightStateManager
deriving DecidableEq

/-- Python truthiness of `entry.data.get(CONF_ALERT_LIGHT_GROUP)`: the
configured group, with an absent or empty value both falsy. -/
def configured_light_group (env : HostEnv) : Option String :=
  match env.alert_light_group with
  | none => none
  | some g => if g = "" then none else some g

/-- Translation of `AlertTracker._activate_light_alert`.  With
`save_states = true` it delegates to `save_light_states_and_set_alert`;
otherwise (startup recovery) it directly issues the batched alert command
to the RGB-capable members and sets the flag, without touching the
snapshot.  Any exception is caught and turned into a false result. -/
def AlertTracker.activate_light_alert (env : HostEnv) (light_group : String)
    (save_states : Bool) (m : LightStateManager) :
    Bool × LightStateManager × List LightCommand :=
  if save_states then LightStateManager.save_light_states_and_set_alert env light_group m
  else
    let entity_ids := LightStateManager.get_light_entities env light_group
    let rgb_lights := LightStateManager.validate_rgb_support env entity_ids
    if rgb_lights = [] then (false, m, [])
    else
      let cmd := LightCommand.turn_on (alertTurnOnData rgb_lights)
      if env.cmd_ok cmd then (true, { m with alert_active := true }, [cmd])
      else (false, m, [cmd])

/-- Translation of `AlertTracker.add_alert`: reject non-alert priorities;
record and persist the id; on the empty-to-non-empty edge with a
configured light group, return the activation result. -/
def AlertTracker.add_alert (env : HostEnv) (self : AlertTracker)
    (notification_id priority : String) :
    Bool × AlertTracker × List LightCommand :=
  if priority ∉ ALERT_PRIORITIES then (false, self, [])
  else
    let was_empty := self.active_alerts = ∅
    let alerts := insert notification_id self.active_alerts
    let self1 : AlertTracker :=
      { self with active_alerts := alerts, store_data := alerts }
    if was_empty then
      match configured_light_group env with
      | some light_group =>
        let r := AlertTracker.activate_light_alert env light_group true self1.light_manager
        (r.1, { self1 with light_manager := r.2.1 }, r.2.2)
      | none => (true, self1, [])
    else (true, self1, [])

/-- Translation of `AlertTracker.remove_alert`: reject untracked ids;
discard and persist; on the non-empty-to-empty edge return the result of
`restore_light_states`. -/
def AlertTracker.remove_alert (env : HostEnv) (self : AlertTracker)
    (notification_id : String) :
    Bool × AlertTracker × List LightCommand :=
  if notification_id ∉ self.active_alerts then (false, self, [])
  else
    let alerts := self.active_alerts.erase notification_id
    let self1 : AlertTracker :=
      { self with active_alerts := alerts, store_data := alerts }
    if alerts = ∅ then
      let r := LightStateManager.restore_light_states env self1.light_manager
      (r.1, { self1 with light_manager := r.2.1 }, r.2.2)
    else (true, self1, [])

/-- Live persistent-notification ids carrying this integration's id
prefix, as selected by `check_existing_notifications`. -/
def lmnopLiveIds (env : HostEnv) : Finset String :=
  env.live_notification_ids.filter (fun notification_id =>
    str_startswith notification_id (DOMAIN ++ "_"))

/-- Translation of `AlertTracker.check_existing_notifications`: intersect
the persisted ids with the live prefixed ids; if the result is non-empty,
a light group is configured and no override is active, run the recovery
activation (no snapshot); persist exactly when the adopted set differs
from the loaded one.  The third component reports whether storage was
rewritten. -/
def AlertTracker.check_existing_notifications (env : HostEnv) (self : AlertTracker) :
    AlertTracker × List LightCommand × Bool :=
  let saved_alerts := self.store_data
  let alerts := saved_alerts ∩ lmnopLiveIds env
  let self1 : AlertTracker := { self with active_alerts := alerts }
  let step :=
    if alerts ≠ ∅ then
      match configured_light_group env with
      | some light_group =>
        if self1.light_manager.is_alert_active = false then
          let r := AlertTracker.activate_light_alert env light_group false
            self1.light_manager
          ({ self1 with light_manager := r.2.1 }, r.2.2)
        else (self1, [])
      | none => (self1, [])
    else (self1, [])
  if saved_alerts ≠ alerts then
    ({ step.1 with store_data := alerts }, step.2, true)
  else (step.1, step.2, false)

/-- Translation of the `active_alert_count` property. -/
def AlertTracker.active_alert_count (self : AlertTracker) : Nat :=
  self.active_alerts.card

/-- Translation of the tracker's `is_alert_active` property. -/
def AlertTracker.is_alert_active (self : AlertTracker) : Bool :=
  0 < self.active_alerts.card

/-! Title-priority parsing (`notify.py`,
`LmnopNotifyEntity._parse_priority_from_title`). -/

/-- Word character of the regex class `\w`, for the ASCII titles this
development considers. -/
def isWordChar (c : Char) : Bool := c.isAlphanum || c = '_'

/-- Whitespace of the regex class `\s` (ASCII range). -/
def isPySpace (c : Char) : Bool :=
  c = ' ' || c = '\t' || c = '\n' || c = '\r' || c = '\x0B' || c = '\x0C'

/-- Match of the anchored pattern used by `_parse_priority_from_title`:
an opening bracket, a non-empty greedy `\w` run (it must be followed by
the closing bracket, or the whole match fails), the closing bracket, a
greedy whitespace run, then a dot-star group anchored at the end (so the
remainder must be newline-free, except that one final newline may sit
after the match point of the end anchor).  Returns the tag characters and
the second group. -/
def matchTitleTag (s : List Char) : Option (List Char × List Char) :=
  match s with
  | [] => none
  | c :: rest =>
    if c = '[' then
      let w := rest.takeWhile isWordChar
      let rest2 := rest.dropWhile isWordChar
      if w = [] then none
      else
        match rest2 with
        | [] => none
        | c2 :: rest3 =>
          if c2 = ']' then
            let t := rest3.dropWhile isPySpace
            if t.contains '\n' then
              if t.getLast? = some '\n' ∧ (t.dropLast.contains '\n') = false then
                some (w, t.dropLast)
              else none
            else some (w, t)
          else none
    else none

/-- Lowercasing of the matched tag (`match.group(1).lower()`). -/
def lowerTag (w : List Char) : String := String.mk (w.map Char.toLower)

/-- The `valid_priorities` list of `_parse_priority_from_title`. -/
def valid_priorities : List String :=
  [PRIORITY_CRITICAL, PRIORITY_HIGH, PRIORITY_REGULAR, PRIORITY_LOW, PRIORITY_DEBUG]

/-- Translation of `LmnopNotifyEntity._parse_priority_from_title`: a falsy
title (absent or empty) passes through with regular priority; otherwise
the bracket tag is matched, lowercased and checked against the valid
priorities, falling back to regular priority (with a logged warning) for
an unrecognized tag; the cleaned title is the second group, with an empty
group collapsing to `none` (`match.group(2) or None`). -/
def parse_priority_from_title (title : Option String) : String × Option String :=
  match title with
  | none => (PRIORITY_REGULAR, none)
  | some t =>
    if t = "" then (PRIORITY_REGULAR, some t)
    else
      match matchTitleTag t.data with
      | none => (PRIORITY_REGULAR, some t)
      | some (w, rest) =>
        let priority_str := lowerTag w
        let clean_title : Option String :=
          if rest = [] then none else some (String.mk rest)
        if priority_str ∈ valid_priorities then (priority_str, clean_title)
        else (PRIORITY_REGULAR, clean_title)

/-! Specification-side predicates. -/

/-- Invariant of the spec's data-model section: the Alert-Active Flag is
true exactly when the saved-state snapshot map is non-empty. -/
def AlertSnapshotInv (m : LightStateManager) : Prop :=
  m.alert_active = true ↔ m.saved_states ≠ []

instance (m : LightStateManager) : Decidable (AlertSnapshotInv m) := by
  unfold AlertSnapshotInv
  infer_instance

/-- Round-trip property of a restore command for the light `entity_id`
whose snapshot recorded `saved`: an off snapshot yields an off command;
an on snapshot yields an on command targeting that light and reproducing
recorded brightness and effect, with color-temperature carried in
preference to RGB color when both were recorded. -/
def ReproducesState (entity_id : String) (saved : SavedState) (c : LightCommand) : Prop :=
  if saved.state = "off" then c = LightCommand.turn_off entity_id
  else
    ∃ d, c = LightCommand.turn_on d
      ∧ d.entity_id = [entity_id]
      ∧ d.brightness = saved.brightness
      ∧ d.effect = saved.effect
      ∧ (saved.color_temp ≠ none → d.color_temp = saved.color_temp ∧ d.rgb_color = none)
      ∧ (saved.color_temp = none → d.color_temp = none ∧ d.rgb_color = saved.rgb_color)

/-! Concrete fixtures used by witnesses and counterexamples: a host with
one RGB-capable light `light.g` that is on with brightness, RGB color,
color temperature and an effect recorded. -/

def demoAttrs : LightAttrs :=
  { brightness := some 77
    rgb_color := some [10, 20, 30]
    color_temp := some 300
    effect := some "colorloop"
    supported_color_modes := ["rgb"]
    entity_id := none }

def demoEnv : HostEnv :=
  { states := fun e =>
      if e = "light.g" then some { state := "on", attributes := demoAttrs } else none
    cmd_ok := fun _ => true
    alert_light_group := some "light.g"
    live_notification_ids := {"lmnop_a", "other"} }

/-- Same host, but every light service call raises. -/
def demoEnvReject : HostEnv :=
  { demoEnv with cmd_ok := fun _ => false }

def mgr0 : LightStateManager := { saved_states := [], alert_active := false }

/-- Snapshot of `light.g` as taken by `_save_light_state` from `demoEnv`. -/
def demoSaved : SavedState :=
  { entity_id := "light.g"
    state := "on"
    brightness := some 77
    rgb_color := some [10, 20, 30]
    color_temp := some 300
    effect := some "colorloop" }

/-- Manager with an active override over `light.g`. -/
def mgr1 : LightStateManager :=
  { saved_states := [("light.g", demoSaved)], alert_active := true }

def tracker0 : AlertTracker :=
  { active_alerts := ∅, store_data := {"lmnop_a"}, light_manager := mgr0 }

/-- Tracker with one live alert recorded. -/
def tracker1 : AlertTracker :=
  { active_alerts := {"lmnop_x"}, store_data := {"lmnop_x"}, light_manager := mgr0 }

/-- Host with no light entities, no configured group, and a live
notification id outside the integration's namespace. -/
def strayEnv : HostEnv :=
  { states := fun _ => none
    cmd_ok := fun _ => true
    alert_light_group := none
    live_notification_ids := {"foo"} }

/-- Tracker whose persisted storage holds that out-of-namespace id. -/
def strayTracker : AlertTracker :=
  { active_alerts := ∅, store_data := {"foo"}, light_manager := mgr0 }

/-! Helper lemmas shared by the claim theorems. -/

theorem takeWhile_dropWhile_append {α : Type} (p : α → Bool) (l r : List α)
    (hl : ∀ a ∈ l, p a = true) (hr : ∀ a, r.head? = some a → p a = false) :
    (l ++ r).takeWhile p = l ∧ (l ++ r).dropWhile p = r := by
  induction l with
  | nil =>
    cases r with
    | nil => simp
    | cons a r' =>
      have h := hr a rfl
      simp [List.takeWhile_cons, List.dropWhile_cons, h]
  | cons a l' ih =>
    have ha := hl a (List.mem_cons_self a l')
    have ih' := ih (fun b hb => hl b (List.mem_cons_of_mem a hb))
    simp [List.takeWhile_cons, List.dropWhile_cons, ha, ih'.1, ih'.2]

theorem restore_loop_all_ok (k : LightCommand → Bool) (h : ∀ c, k c = true) :
    ∀ l : List (String × SavedState),
      LightStateManager.restore_loop k l =
        (true, l.map fun p => LightStateManager.restoreCommand p.1 p.2)
  | [] => rfl
  | (e, s) :: rest => by
    simp [LightStateManager.restore_loop, h, restore_loop_all_ok k h rest]

theorem restore_loop_true_accepted (k : LightCommand → Bool) :
    ∀ l : List (String × SavedState),
      (LightStateManager.restore_loop k l).1 = true →
      ∀ c ∈ (LightStateManager.restore_loop k l).2, k c = true := by
  intro l
  induction l with
  | nil => intro _ c hc; simp [LightStateManager.restore_loop] at hc
  | cons hd rest ih =>
    obtain ⟨e, s⟩ := hd
    intro h1 c hc
    by_cases hk : k (LightStateManager.restoreCommand e s) = true
    · simp only [LightStateManager.restore_loop, hk, if_true, List.mem_cons] at h1 hc
      rcases hc with rfl | hc
      · exact hk
      · exact ih h1 c hc
    · simp only [LightStateManager.restore_loop, hk, if_false] at h1
      simp at hk
      simp [hk] at h1

theorem restoreCommand_reproduces (entity_id : String) (saved : SavedState) :
    ReproducesState entity_id saved (LightStateManager.restoreCommand entity_id saved) := by
  unfold ReproducesState LightStateManager.restoreCommand
  split
  · rfl
  · refine ⟨_, rfl, rfl, rfl, rfl, ?_, ?_⟩
    · intro h
      cases hct : saved.color_temp with
      | none => exact absurd hct h
      | some v => simp [hct]
    · intro h
      simp [h]

theorem save_true_state (env : HostEnv) (g : String) (m m' : LightStateManager)
    (tr : List LightCommand)
    (h : LightStateManager.save_light_states_and_set_alert env g m = (true, m', tr)) :
    m'.alert_active = true ∧ m'.saved_states ≠ [] := by
  simp only [LightStateManager.save_light_states_and_set_alert] at h
  split at h
  · simp at h
  · split at h
    · simp at h
    · split at h
      · simp at h
      · split at h
        · simp at h
        · split at h
          next hsaved _ =>
            injection h with h1 h2
            injection h2 with h2 h3
            subst h2
            refine ⟨rfl, ?_⟩
            simpa using hsaved
          next => simp at h

theorem restore_all_ok (env : HostEnv) (m : LightStateManager)
    (ha : m.alert_active = true) (hs : m.saved_states ≠ [])
    (hc : ∀ c, env.cmd_ok c = true) :
    LightStateManager.restore_light_states env m =
      (true, { saved_states := [], alert_active := false },
       m.saved_states.map fun p => LightStateManager.restoreCommand p.1 p.2) := by
  unfold LightStateManager.restore_light_states
  rw [if_neg (by simp [ha, hs])]
  simp [restore_loop_all_ok env.cmd_ok hc]


theorem inv_save (env : HostEnv) (g : String) (m : LightStateManager)
    (h : AlertSnapshotInv m) :
    AlertSnapshotInv (LightStateManager.save_light_states_and_set_alert env g m).2.1 := by
  simp only [LightStateManager.save_light_states_and_set_alert]
  split
  · exact h
  next hact =>
    have hact' : m.alert_active = false := by simpa using hact
    split
    · exact h
    · split
      · exact h
      · split
        · simp [AlertSnapshotInv, hact']
        next hsaved =>
          split
          · simpa [AlertSnapshotInv] using hsaved
          · simp [AlertSnapshotInv, hact']

theorem inv_restore (env : HostEnv) (m : LightStateManager)
    (h : AlertSnapshotInv m) :
    AlertSnapshotInv (LightStateManager.restore_light_states env m).2.1 := by
  simp only [LightStateManager.restore_light_states]
  split
  · exact h
  · split
    · simp [AlertSnapshotInv]
    · exact h

theorem inv_add (env : HostEnv) (s : AlertTracker) (notification_id priority : String)
    (h : AlertSnapshotInv s.light_manager) :
    AlertSnapshotInv
      (AlertTracker.add_alert env s notification_id priority).2.1.light_manager := by
  simp only [AlertTracker.add_alert]
  split
  · exact h
  · split
    · cases hcg : configured_light_group env with
      | none => simpa using h
      | some g =>
        simp only [hcg]
        exact inv_save env g s.light_manager h
    · exact h

theorem inv_remove (env : HostEnv) (s : AlertTracker) (notification_id : String)
    (h : AlertSnapshotInv s.light_manager) :
    AlertSnapshotInv (AlertTracker.remove_alert env s notification_id).2.1.light_manager := by
  simp only [AlertTracker.remove_alert]
  split
  · exact h
  · split
    · exact inv_restore env s.light_manager h
    · exact h

theorem check_manager_eq (env : HostEnv) (s : AlertTracker) :
    (AlertTracker.check_existing_notifications env s).1.light_manager = s.light_manager ∨
    (AlertTracker.check_existing_notifications env s).1.light_manager =
      { s.light_manager with alert_active := true } := by
  simp only [AlertTracker.check_existing_notifications, AlertTracker.activate_light_alert,
    LightStateManager.is_alert_active]
  repeat' split
  all_goals try exact absurd ‹false = true› (by decide)
  all_goals simp

theorem check_preserves_snapshot_flag (env : HostEnv) (s : AlertTracker)
    (h : AlertSnapshotInv s.light_manager) :
    (AlertTracker.check_existing_notifications env s).1.light_manager.saved_states ≠ [] →
      (AlertTracker.check_existing_notifications env s).1.light_manager.alert_active = true := by
  intro hne
  rcases check_manager_eq env s with heq | heq
  · rw [heq] at hne ⊢
    exact h.mpr hne
  · rw [heq]

theorem restore_true_clears (env : HostEnv) (m m' : LightStateManager)
    (tr : List LightCommand)
    (h : LightStateManager.restore_light_states env m = (true, m', tr)) :
    m'.saved_states = [] ∧ m'.alert_active = false := by
  simp only [LightStateManager.restore_light_states] at h
  split at h
  · simp at h
  · split at h
    · injection h with h1 h2
      injection h2 with h2 h3
      subst h2
      exact ⟨rfl, rfl⟩
    · simp at h

/-! Claim theorems. -/

/-- Claim C1, counterexample: the startup-recovery path of
`check_existing_notifications` sets the Alert-Active Flag with an empty
snapshot map, so the flag-iff-non-empty-snapshot invariant does not hold
after every completed `reconcile_on_startup`: starting from a state
satisfying it, with one persisted live alert, a configured group and an
accepted command, the reconciled manager violates it. -/
theorem claim1_invariant_counterexample :
    AlertSnapshotInv tracker0.light_manager ∧
    ¬ AlertSnapshotInv
      (AlertTracker.check_existing_notifications demoEnv tracker0).1.light_manager := by
  decide

/-- Claim C1, amended: after any completed `save_and_override`, `restore`,
`clear`, `add` or `remove`, the Alert-Active Flag is true iff the snapshot
map is non-empty; `reconcile_on_startup` preserves only the direction that
a non-empty snapshot implies the flag (its recovery path can set the flag
over an empty snapshot); and a successful restore clears both together. -/
theorem claim1_invariant_amended :
    (∀ env g m, AlertSnapshotInv m →
      AlertSnapshotInv (LightStateManager.save_light_states_and_set_alert env g m).2.1)
    ∧ (∀ env m, AlertSnapshotInv m →
      AlertSnapshotInv (LightStateManager.restore_light_states env m).2.1)
    ∧ (∀ m, AlertSnapshotInv (LightStateManager.clear_alert_state m))
    ∧ (∀ env s notification_id priority, AlertSnapshotInv s.light_manager →
      AlertSnapshotInv
        (AlertTracker.add_alert env s notification_id priority).2.1.light_manager)
    ∧ (∀ env s notification_id, AlertSnapshotInv s.light_manager →
      AlertSnapshotInv (AlertTracker.remove_alert env s notification_id).2.1.light_manager)
    ∧ (∀ env s, AlertSnapshotInv s.light_manager →
      (AlertTracker.check_existing_notifications env s).1.light_manager.saved_states ≠ [] →
        (AlertTracker.check_existing_notifications env s).1.light_manager.alert_active = true)
    ∧ (∀ env m m' tr, LightStateManager.restore_light_states env m = (true, m', tr) →
      m'.saved_states = [] ∧ m'.alert_active = false) := by
  refine ⟨inv_save, inv_restore, ?_, inv_add, inv_remove,
    check_preserves_snapshot_flag, restore_true_clears⟩
  intro m
  simp [AlertSnapshotInv, LightStateManager.clear_alert_state]

/-- Claim C1, witness for the amended theorem: instantiates the
`save_and_override` conjunct on the demo host from the inactive manager. -/
theorem claim1_invariant_amended_witness :
    AlertSnapshotInv
      (LightStateManager.save_light_states_and_set_alert demoEnv "light.g" mgr0).2.1 :=
  claim1_invariant_amended.1 demoEnv "light.g" mgr0 (by decide)


/-- Claim C2: `add` rejects non-alert priorities unchanged; otherwise it
records the id and persists the set; on the empty-to-non-empty edge with
a configured light group it requests `save_and_override` on that group
and returns its result (with that call's manager state and commands); on
a non-empty set it simply records, persists and returns true. -/
theorem claim2_add_alert (env : HostEnv) (s : AlertTracker)
    (notification_id priority : String) :
    (priority ∉ ALERT_PRIORITIES →
      AlertTracker.add_alert env s notification_id priority = (false, s, []))
    ∧ (priority ∈ ALERT_PRIORITIES →
      (AlertTracker.add_alert env s notification_id priority).2.1.active_alerts =
          insert notification_id s.active_alerts
        ∧ (AlertTracker.add_alert env s notification_id priority).2.1.store_data =
          insert notification_id s.active_alerts)
    ∧ (priority ∈ ALERT_PRIORITIES → s.active_alerts = ∅ →
      ∀ g, configured_light_group env = some g →
        AlertTracker.add_alert env s notification_id priority =
          ((LightStateManager.save_light_states_and_set_alert env g s.light_manager).1,
           { active_alerts := insert notification_id s.active_alerts
             store_data := insert notification_id s.active_alerts
             light_manager :=
               (LightStateManager.save_light_states_and_set_alert env g s.light_manager).2.1 },
           (LightStateManager.save_light_states_and_set_alert env g s.light_manager).2.2))
    ∧ (priority ∈ ALERT_PRIORITIES → s.active_alerts ≠ ∅ →
      AlertTracker.add_alert env s notification_id priority =
        (true,
         { active_alerts := insert notification_id s.active_alerts
           store_data := insert notification_id s.active_alerts
           light_manager := s.light_manager }, [])) := by
  refine ⟨?_, ?_, ?_, ?_⟩
  · intro h
    simp [AlertTracker.add_alert, h]
  · intro h
    by_cases h2 : s.active_alerts = ∅
    · cases hcg : configured_light_group env with
      | none => simp [AlertTracker.add_alert, h, h2, hcg]
      | some g =>
        simp [AlertTracker.add_alert, AlertTracker.activate_light_alert, h, h2, hcg]
    · simp [AlertTracker.add_alert, h, h2]
  · intro h h2 g hcg
    simp [AlertTracker.add_alert, AlertTracker.activate_light_alert, h, h2, hcg]
  · intro h h2
    simp [AlertTracker.add_alert, h, h2]

/-- Claim C2, witness: the first critical alert on an empty tracker with
the demo group triggers `save_and_override` and returns its result. -/
theorem claim2_add_alert_witness :
    AlertTracker.add_alert demoEnv tracker0 "lmnop_n1" PRIORITY_CRITICAL =
      ((LightStateManager.save_light_states_and_set_alert demoEnv "light.g"
          tracker0.light_manager).1,
       { active_alerts := insert "lmnop_n1" tracker0.active_alerts
         store_data := insert "lmnop_n1" tracker0.active_alerts
         light_manager :=
           (LightStateManager.save_light_states_and_set_alert demoEnv "light.g"
             tracker0.light_manager).2.1 },
       (LightStateManager.save_light_states_and_set_alert demoEnv "light.g"
         tracker0.light_manager).2.2) :=
  (claim2_add_alert demoEnv tracker0 "lmnop_n1" PRIORITY_CRITICAL).2.2.1
    (by decide) (by decide) "light.g" (by decide)

/-- Claim C3: `remove` rejects untracked ids unchanged; otherwise it
removes the id and persists; on the non-empty-to-empty edge it requests
`restore` and returns its result (with that call's manager state and
commands); otherwise it returns true without light commands. -/
theorem claim3_remove_alert (env : HostEnv) (s : AlertTracker)
    (notification_id : String) :
    (notification_id ∉ s.active_alerts →
      AlertTracker.remove_alert env s notification_id = (false, s, []))
    ∧ (notification_id ∈ s.active_alerts →
      (AlertTracker.remove_alert env s notification_id).2.1.active_alerts =
          s.active_alerts.erase notification_id
        ∧ (AlertTracker.remove_alert env s notification_id).2.1.store_data =
          s.active_alerts.erase notification_id)
    ∧ (notification_id ∈ s.active_alerts → s.active_alerts.erase notification_id = ∅ →
      AlertTracker.remove_alert env s notification_id =
        ((LightStateManager.restore_light_states env s.light_manager).1,
         { active_alerts := s.active_alerts.erase notification_id
           store_data := s.active_alerts.erase notification_id
           light_manager :=
             (LightStateManager.restore_light_states env s.light_manager).2.1 },
         (LightStateManager.restore_light_states env s.light_manager).2.2))
    ∧ (notification_id ∈ s.active_alerts → s.active_alerts.erase notification_id ≠ ∅ →
      AlertTracker.remove_alert env s notification_id =
        (true,
         { active_alerts := s.active_alerts.erase notification_id
           store_data := s.active_alerts.erase notification_id
           light_manager := s.light_manager }, [])) := by
  refine ⟨?_, ?_, ?_, ?_⟩
  · intro h
    simp [AlertTracker.remove_alert, h]
  · intro h
    by_cases h2 : s.active_alerts.erase notification_id = ∅ <;>
      simp [AlertTracker.remove_alert, h, h2]
  · intro h h2
    simp [AlertTracker.remove_alert, h, h2]
  · intro h h2
    simp [AlertTracker.remove_alert, h, h2]

/-- Claim C3, witness: removing the only tracked alert requests `restore`
(here a no-op returning false, since no override is active). -/
theorem claim3_remove_alert_witness :
    AlertTracker.remove_alert demoEnv tracker1 "lmnop_x" =
      ((LightStateManager.restore_light_states demoEnv tracker1.light_manager).1,
       { active_alerts := tracker1.active_alerts.erase "lmnop_x"
         store_data := tracker1.active_alerts.erase "lmnop_x"
         light_manager :=
           (LightStateManager.restore_light_states demoEnv tracker1.light_manager).2.1 },
       (LightStateManager.restore_light_states demoEnv tracker1.light_manager).2.2) :=
  (claim3_remove_alert demoEnv tracker1 "lmnop_x").2.2.1 (by decide) (by decide)

/-- Claim C9: calling `save_and_override` while an override is active is a
no-op returning false, leaving the snapshot and flag exactly as they
were and issuing no command. -/
theorem claim9_save_noop_when_active (env : HostEnv) (g : String)
    (m : LightStateManager) (h : m.alert_active = true) :
    LightStateManager.save_light_states_and_set_alert env g m = (false, m, []) := by
  simp [LightStateManager.save_light_states_and_set_alert, h]

/-- Claim C9, witness: a second call on the already-active manager. -/
theorem claim9_save_noop_when_active_witness :
    LightStateManager.save_light_states_and_set_alert demoEnv "light.g" mgr1 =
      (false, mgr1, []) :=
  claim9_save_noop_when_active demoEnv "light.g" mgr1 rfl

/-- Claim C10: a first alert added while no light group is configured is
still recorded and persisted, no light command is issued, and the call
returns true. -/
theorem claim10_add_without_group (env : HostEnv) (s : AlertTracker)
    (notification_id priority : String)
    (h1 : priority ∈ ALERT_PRIORITIES) (h2 : s.active_alerts = ∅)
    (h3 : configured_light_group env = none) :
    AlertTracker.add_alert env s notification_id priority =
      (true,
       { active_alerts := insert notification_id s.active_alerts
         store_data := insert notification_id s.active_alerts
         light_manager := s.light_manager }, []) := by
  simp [AlertTracker.add_alert, h1, h2, h3]

/-- Claim C10, witness: first critical alert with no configured group. -/
theorem claim10_add_without_group_witness :
    AlertTracker.add_alert strayEnv strayTracker "lmnop_z" PRIORITY_CRITICAL =
      (true,
       { active_alerts := insert "lmnop_z" strayTracker.active_alerts
         store_data := insert "lmnop_z" strayTracker.active_alerts
         light_manager := strayTracker.light_manager }, []) :=
  claim10_add_without_group strayEnv strayTracker "lmnop_z" PRIORITY_CRITICAL
    (by decide) (by decide) rfl


/-- Claim C5: starting from an inactive manager, the flag can end up set
only with the result true, a non-empty snapshot taken, and the single
batched alert command accepted; and when the issued command is rejected
the call returns false with the partial snapshot cleared and the flag
still false. -/
theorem claim5_save_failure_handling (env : HostEnv) (g : String)
    (m m' : LightStateManager) (r : Bool) (tr : List LightCommand)
    (hact : m.alert_active = false)
    (hrun : LightStateManager.save_light_states_and_set_alert env g m = (r, m', tr)) :
    (m'.alert_active = true →
      r = true ∧ m'.saved_states ≠ [] ∧ ∃ c, tr = [c] ∧ env.cmd_ok c = true)
    ∧ (∀ c, tr = [c] → env.cmd_ok c = false →
      r = false ∧ m'.saved_states = [] ∧ m'.alert_active = false) := by
  simp only [LightStateManager.save_light_states_and_set_alert] at hrun
  rw [if_neg (by simp [hact])] at hrun
  split at hrun
  · injection hrun with h1 h2
    injection h2 with h2 h3
    subst h1 h2 h3
    exact ⟨fun hf => absurd hf (by simp [hact]), fun c hc => by simp at hc⟩
  · split at hrun
    · injection hrun with h1 h2
      injection h2 with h2 h3
      subst h1 h2 h3
      exact ⟨fun hf => absurd hf (by simp [hact]), fun c hc => by simp at hc⟩
    · split at hrun
      · injection hrun with h1 h2
        injection h2 with h2 h3
        subst h1 h2 h3
        refine ⟨fun hf => absurd hf (by simp [hact]), fun c hc => by simp at hc⟩
      next hsaved =>
        split at hrun
        next hok =>
          injection hrun with h1 h2
          injection h2 with h2 h3
          subst h1 h2 h3
          refine ⟨fun _ => ⟨rfl, by simpa using hsaved, _, rfl, hok⟩, ?_⟩
          intro c hc hbad
          rw [List.cons.injEq] at hc
          rw [← hc.1] at hbad
          exact absurd hok (by simp [hbad])
        next hok =>
          injection hrun with h1 h2
          injection h2 with h2 h3
          subst h1 h2 h3
          exact ⟨fun hf => absurd hf (by simp [hact]), fun c _ _ => ⟨rfl, rfl, hact⟩⟩

/-- Claim C5, witness: on the rejecting host the call fails, clears the
snapshot and leaves the flag unset. -/
theorem claim5_save_failure_handling_witness :
    (({ saved_states := [], alert_active := mgr0.alert_active } :
        LightStateManager).alert_active = true →
      false = true
        ∧ ({ saved_states := [], alert_active := mgr0.alert_active } :
            LightStateManager).saved_states ≠ []
        ∧ ∃ c, [LightCommand.turn_on (alertTurnOnData ["light.g"])] = [c]
            ∧ demoEnvReject.cmd_ok c = true)
    ∧ (∀ c, [LightCommand.turn_on (alertTurnOnData ["light.g"])] = [c] →
        demoEnvReject.cmd_ok c = false →
        false = false
          ∧ ({ saved_states := [], alert_active := mgr0.alert_active } :
              LightStateManager).saved_states = []
          ∧ ({ saved_states := [], alert_active := mgr0.alert_active } :
              LightStateManager).alert_active = false) :=
  claim5_save_failure_handling demoEnvReject "light.g" mgr0
    { saved_states := [], alert_active := mgr0.alert_active } false
    [LightCommand.turn_on (alertTurnOnData ["light.g"])] rfl (by decide)


/-- Claim C6: `restore` returns false without side effects when no
override is active or no snapshot exists; it clears snapshot and flag
only when every restore command succeeded (result true); and when any
issued command fails it returns false (the exception is caught, not
raised) with the state untouched and the flag still set. -/
theorem claim6_restore_failure_handling (env : HostEnv) (m m' : LightStateManager)
    (r : Bool) (tr : List LightCommand)
    (hrun : LightStateManager.restore_light_states env m = (r, m', tr)) :
    ((m.alert_active = false ∨ m.saved_states = []) → r = false ∧ m' = m ∧ tr = [])
    ∧ (r = true → m'.saved_states = [] ∧ m'.alert_active = false ∧
        ∀ c ∈ tr, env.cmd_ok c = true)
    ∧ ((∃ c ∈ tr, env.cmd_ok c = false) →
        r = false ∧ m' = m ∧ m.alert_active = true) := by
  simp only [LightStateManager.restore_light_states] at hrun
  split at hrun
  · injection hrun with h1 h2
    injection h2 with h2 h3
    subst h1 h2 h3
    refine ⟨fun _ => ⟨rfl, rfl, rfl⟩, fun h => by simp at h, fun h => ?_⟩
    obtain ⟨c, hc, -⟩ := h
    simp at hc
  next hpre =>
    have hpa : m.alert_active = true := by
      by_contra hh
      exact hpre (Or.inl (by simpa using hh))
    have hps : m.saved_states ≠ [] := fun hh => hpre (Or.inr hh)
    split at hrun
    next hloop =>
      injection hrun with h1 h2
      injection h2 with h2 h3
      subst h1 h2 h3
      refine ⟨fun hcon => ?_, fun _ => ⟨rfl, rfl, ?_⟩, fun hcon => ?_⟩
      · rcases hcon with hcon | hcon
        · exact absurd hpa (by simp [hcon])
        · exact absurd hcon hps
      · exact restore_loop_true_accepted env.cmd_ok m.saved_states hloop
      · obtain ⟨c, hc, hbad⟩ := hcon
        have := restore_loop_true_accepted env.cmd_ok m.saved_states hloop c hc
        simp [this] at hbad
    next hloop =>
      injection hrun with h1 h2
      injection h2 with h2 h3
      subst h1 h2 h3
      refine ⟨fun hcon => ?_, fun h => by simp at h, fun _ => ⟨rfl, rfl, hpa⟩⟩
      rcases hcon with hcon | hcon
      · exact absurd hpa (by simp [hcon])
      · exact absurd hcon hps

/-- Claim C6, witness: on the rejecting host, restoring the active manager
fails on its first command, returns false and leaves the flag set. -/
theorem claim6_restore_failure_handling_witness :
    ((mgr1.alert_active = false ∨ mgr1.saved_states = []) →
      false = false ∧ mgr1 = mgr1 ∧
        [LightStateManager.restoreCommand "light.g" demoSaved] = [])
    ∧ (false = true → mgr1.saved_states = [] ∧ mgr1.alert_active = false ∧
        ∀ c ∈ [LightStateManager.restoreCommand "light.g" demoSaved],
          demoEnvReject.cmd_ok c = true)
    ∧ ((∃ c ∈ [LightStateManager.restoreCommand "light.g" demoSaved],
          demoEnvReject.cmd_ok c = false) →
        false = false ∧ mgr1 = mgr1 ∧ mgr1.alert_active = true) :=
  claim6_restore_failure_handling demoEnvReject mgr1 mgr1 false
    [LightStateManager.restoreCommand "light.g" demoSaved] (by decide)


/-- Claim C4: after a successful `save_and_override`, running `restore`
with every command accepted issues, for each light whose snapshot
recorded state `saved`, a command reproducing that snapshot: its on/off
value, its recorded brightness and effect, and its color, carrying
color-temperature in preference to RGB color when both were recorded. -/
theorem claim4_roundtrip (env env2 : HostEnv) (g : String)
    (m m1 : LightStateManager) (tr1 : List LightCommand)
    (r2 : Bool) (m2 : LightStateManager) (tr2 : List LightCommand)
    (entity_id : String) (saved : SavedState)
    (hcmd : ∀ c, env2.cmd_ok c = true)
    (hsave : LightStateManager.save_light_states_and_set_alert env g m = (true, m1, tr1))
    (hrest : LightStateManager.restore_light_states env2 m1 = (r2, m2, tr2))
    (hmem : (entity_id, saved) ∈ m1.saved_states) :
    ∃ c ∈ tr2, ReproducesState entity_id saved c := by
  obtain ⟨ha, hs⟩ := save_true_state env g m m1 tr1 hsave
  rw [restore_all_ok env2 m1 ha hs hcmd] at hrest
  injection hrest with h1 h2
  injection h2 with h2 h3
  subst h3
  refine ⟨LightStateManager.restoreCommand entity_id saved, ?_,
    restoreCommand_reproduces entity_id saved⟩
  exact List.mem_map.mpr ⟨(entity_id, saved), hmem, rfl⟩

/-- Claim C4, witness: the demo light's snapshot (on, brightness 77, both
RGB and color-temperature, an effect) is reproduced by the restore trace
after a save-and-override/restore round trip. -/
theorem claim4_roundtrip_witness :
    ∃ c ∈ (LightStateManager.restore_light_states demoEnv
        (LightStateManager.save_light_states_and_set_alert demoEnv "light.g"
          mgr0).2.1).2.2,
      ReproducesState "light.g" demoSaved c :=
  claim4_roundtrip demoEnv demoEnv "light.g" mgr0
    (LightStateManager.save_light_states_and_set_alert demoEnv "light.g" mgr0).2.1
    (LightStateManager.save_light_states_and_set_alert demoEnv "light.g" mgr0).2.2
    (LightStateManager.restore_light_states demoEnv
      (LightStateManager.save_light_states_and_set_alert demoEnv "light.g" mgr0).2.1).1
    (LightStateManager.restore_light_states demoEnv
      (LightStateManager.save_light_states_and_set_alert demoEnv "light.g" mgr0).2.1).2.1
    (LightStateManager.restore_light_states demoEnv
      (LightStateManager.save_light_states_and_set_alert demoEnv "light.g" mgr0).2.1).2.2
    "light.g" demoSaved (fun _ => rfl) (by decide) rfl (by decide)


/-- Claim C7, counterexample: reconciliation intersects the persisted ids
with only the live ids carrying the `lmnop_` prefix, not with all live
acknowledgment ids: a persisted id `"foo"` that is live but outside the
namespace is claimed to be adopted, yet the code adopts the empty set. -/
theorem claim7_reconcile_counterexample :
    strayTracker.store_data ∩ strayEnv.live_notification_ids = {"foo"} ∧
    (AlertTracker.check_existing_notifications strayEnv strayTracker).1.active_alerts = ∅ ∧
    (∅ : Finset String) ≠ ({"foo"} : Finset String) := by
  decide

/-- Claim C7, amended: `reconcile_on_startup` adopts exactly the
intersection of the persisted ids with the live acknowledgment ids that
carry the integration's `lmnop_` prefix; storage is rewritten iff the
adopted set differs from the loaded one (and then holds the adopted set);
no snapshot is ever captured; and when the adopted set is non-empty, a
group is configured and no override is active, the alert color command is
issued to the group's RGB-capable members (none when there are none). -/
theorem claim7_reconcile (env : HostEnv) (s : AlertTracker) :
    (AlertTracker.check_existing_notifications env s).1.active_alerts =
        s.store_data ∩ lmnopLiveIds env
    ∧ ((AlertTracker.check_existing_notifications env s).2.2 = true ↔
        s.store_data ≠ s.store_data ∩ lmnopLiveIds env)
    ∧ (AlertTracker.check_existing_notifications env s).1.store_data =
        (if s.store_data = s.store_data ∩ lmnopLiveIds env then s.store_data
         else s.store_data ∩ lmnopLiveIds env)
    ∧ (AlertTracker.check_existing_notifications env s).1.light_manager.saved_states =
        s.light_manager.saved_states
    ∧ (s.store_data ∩ lmnopLiveIds env ≠ ∅ →
      ∀ g, configured_light_group env = some g →
        s.light_manager.alert_active = false →
        (AlertTracker.check_existing_notifications env s).2.1 =
          (if LightStateManager.validate_rgb_support env
              (LightStateManager.get_light_entities env g) = [] then []
           else [LightCommand.turn_on (alertTurnOnData
             (LightStateManager.validate_rgb_support env
               (LightStateManager.get_light_entities env g)))])) := by
  refine ⟨?_, ?_, ?_, ?_, ?_⟩
  · simp only [AlertTracker.check_existing_notifications, AlertTracker.activate_light_alert,
      LightStateManager.is_alert_active]
    repeat' split
    all_goals try exact absurd ‹false = true› (by decide)
    all_goals simp
  · simp only [AlertTracker.check_existing_notifications]
    split
    next hd => exact iff_of_true (by simp) hd
    next hd => exact iff_of_false (by simp) hd
  · simp only [AlertTracker.check_existing_notifications]
    repeat' split
    all_goals first
      | rfl
      | tauto
  · rcases check_manager_eq env s with heq | heq <;> rw [heq]
  · intro h1 g hcg h2
    by_cases h3 : LightStateManager.validate_rgb_support env
        (LightStateManager.get_light_entities env g) = []
    · simp [AlertTracker.check_existing_notifications, AlertTracker.activate_light_alert,
        LightStateManager.is_alert_active, h1, hcg, h2, h3]
      all_goals split <;> rfl
    · by_cases h4 : env.cmd_ok (LightCommand.turn_on (alertTurnOnData
          (LightStateManager.validate_rgb_support env
            (LightStateManager.get_light_entities env g)))) = true <;>
        simp [AlertTracker.check_existing_notifications, AlertTracker.activate_light_alert,
          LightStateManager.is_alert_active, h1, hcg, h2, h3, h4] <;>
        (all_goals split <;> rfl)

/-- Claim C7, witness: on the demo host with persisted live alert
`lmnop_a`, reconciliation issues the alert color command to the
RGB-capable member of the configured group. -/
theorem claim7_reconcile_witness :
    (AlertTracker.check_existing_notifications demoEnv tracker0).2.1 =
      (if LightStateManager.validate_rgb_support demoEnv
          (LightStateManager.get_light_entities demoEnv "light.g") = [] then []
       else [LightCommand.turn_on (alertTurnOnData
         (LightStateManager.validate_rgb_support demoEnv
           (LightStateManager.get_light_entities demoEnv "light.g")))]) :=
  (claim7_reconcile demoEnv tracker0).2.2.2.2 (by decide) "light.g" (by decide) rfl


/-- Claim C8: priority parsing of a bracketed title prefix.  The two
scenario instances, plus the general statement: for a title of the shape
bracketed word-character tag, closing bracket, one space, then a
newline-free body not starting with whitespace, the tag is matched
case-insensitively against the valid priorities (an unrecognized tag
falling back to the regular priority) and stripped from the displayed
title. -/
theorem claim8_parse_priority (tag body : String)
    (htag : tag.data ≠ []) (hword : ∀ c ∈ tag.data, isWordChar c = true)
    (hhead : ∀ c, body.data.head? = some c → isPySpace c = false)
    (hnl : '\n' ∉ body.data) :
    parse_priority_from_title (some "[high] Pipe burst") = (PRIORITY_HIGH, some "Pipe burst")
    ∧ parse_priority_from_title (some "[bogus] X") = (PRIORITY_REGULAR, some "X")
    ∧ parse_priority_from_title (some ("[" ++ tag ++ "] " ++ body)) =
        ((if lowerTag tag.data ∈ valid_priorities then lowerTag tag.data
          else PRIORITY_REGULAR),
         if body = "" then none else some body) := by
  refine ⟨by decide, by decide, ?_⟩
  have hdata : ("[" ++ tag ++ "] " ++ body).data =
      '[' :: (tag.data ++ ']' :: ' ' :: body.data) := by
    simp [String.data_append]
  have hsplit := takeWhile_dropWhile_append isWordChar tag.data (']' :: ' ' :: body.data)
    hword (by intro a ha; injection ha with ha; subst ha; decide)
  have hne : ("[" ++ tag ++ "] " ++ body) ≠ "" := by
    intro hh
    have := congrArg String.data hh
    rw [hdata] at this
    simp at this
  have hsp : isPySpace ' ' = true := rfl
  have hdropAll : (' ' :: body.data).dropWhile isPySpace = body.data := by
    cases hb : body.data with
    | nil => simp [List.dropWhile, hsp]
    | cons c rest =>
      have hc := hhead c (by rw [hb]; rfl)
      simp [List.dropWhile, hsp, hc]
  have hcon : body.data.contains '\n' = false := by simpa using hnl
  have hmatch : matchTitleTag ("[" ++ tag ++ "] " ++ body).data =
      some (tag.data, body.data) := by
    rw [hdata]
    simp only [matchTitleTag]
    rw [hsplit.1, hsplit.2]
    simp [htag, hdropAll, hcon, hnl]
  have hclean : (if body.data = [] then (none : Option String)
      else some (String.mk body.data)) = (if body = "" then none else some body) := by
    by_cases hb : body.data = []
    · have hb2 : body = "" := String.ext hb
      subst hb2
      simp
    · rw [if_neg hb, if_neg (fun hh => hb (by rw [hh]))]
  simp only [parse_priority_from_title]
  rw [if_neg hne, hmatch]
  simp only []
  rw [hclean]
  by_cases hv : lowerTag tag.data ∈ valid_priorities
  · rw [if_pos hv, if_pos hv]
  · rw [if_neg hv, if_neg hv]

/-- Claim C8, witness: a mixed-case recognized tag with a non-empty body,
through the general statement of the theorem. -/
theorem claim8_parse_priority_witness :
    parse_priority_from_title (some ("[" ++ "HiGh" ++ "] " ++ "Pipe burst")) =
      ((if lowerTag "HiGh".data ∈ valid_priorities then lowerTag "HiGh".data
        else PRIORITY_REGULAR),
       if ("Pipe burst" : String) = "" then none else some "Pipe burst") :=
  (claim8_parse_priority "HiGh" "Pipe burst" (by decide) (by decide)
    (by intro c hc; injection hc with hc; subst hc; decide) (by decide)).2.2

end LmnopSpec
